import Mathlib

/-
Shallow embedding of the game-state normalizer of the NFL Polymarket EV web
form, translated from src/web/app/page.tsx.

Modelling conventions:
- JS numbers are modelled as rationals. Every numeric value handled by
  this page is produced by small integer or decimal arithmetic on user
  inputs, where JS floating point agrees with exact rational arithmetic.
- JS strings are modelled as Lean strings; the string primitives used by
  the page (split, trim, toUpperCase, toLowerCase) are re-implemented by
  structural recursion over the character list, restricted to ASCII
  characters and ASCII whitespace.
- The JS Number() string conversion is modelled for optionally signed
  decimal literals (integer, fractional and empty forms); the exotic JS
  numeric forms (hex, binary, octal, exponent, Infinity) are outside the
  model.
- React state updates are modelled by a pure function from the form state
  (plus the closure-captured previous render state) to the resulting
  component state; the fetch call is modelled by a function argument from
  request payloads to HTTP responses.
-/

/-- Split a character list at every separator character accepted by p,
keeping empty pieces, as the JS split with a plain string separator does. -/
def splitCharList (p : Char → Bool) : List Char → List (List Char)
  | [] => [[]]
  | c :: cs =>
    let r := splitCharList p cs
    if p c then [] :: r
    else
      match r with
      | [] => [[c]]
      | h :: t => (c :: h) :: t

/-- Models JS str.split with a one-character separator string. -/
def jsSplit (p : Char → Bool) (s : String) : List String :=
  (splitCharList p s.data).map (fun l => String.mk l)

/-- Drop leading whitespace characters from a character list. -/
def dropLeadingWs : List Char → List Char
  | [] => []
  | c :: cs => if c.isWhitespace then dropLeadingWs cs else c :: cs

/-- Models JS String.prototype.trim restricted to ASCII whitespace. -/
def trimChars (l : List Char) : List Char :=
  dropLeadingWs (dropLeadingWs l.reverse).reverse

/-- Models JS toUpperCase restricted to ASCII letters. -/
def upper (s : String) : String := String.mk (s.data.map Char.toUpper)

/-- Models JS toLowerCase restricted to ASCII letters. -/
def lower (s : String) : String := String.mk (s.data.map Char.toLower)

/-- Numeric value of a list of decimal digit characters. -/
def digitsVal (l : List Char) : ℕ := l.foldl (fun a c => a * 10 + (c.toNat - 48)) 0

/-- Models the JS Number() string conversion, restricted to optionally
signed decimal literals: the input is trimmed; the empty string converts
to 0; otherwise an optional sign is followed by digits, digits.digits,
digits. or .digits. Any other input converts to NaN, modelled as none.
The hex, binary, octal, exponent and Infinity forms of JS are outside
this model. -/
def jsNumber (s : String) : Option ℚ :=
  let t := trimChars s.data
  if t = [] then some 0
  else
    let signAndBody : ℚ × List Char :=
      match t with
      | c :: r => if c = '-' then (-1, r) else if c = '+' then (1, r) else (1, t)
      | [] => (1, t)
    let sgn := signAndBody.1
    let body := signAndBody.2
    match splitCharList (fun c => c = '.') body with
    | [ip] =>
      if ip ≠ [] ∧ ip.all (fun c => c.isDigit) then some (sgn * (digitsVal ip : ℚ))
      else none
    | [ip, fp] =>
      if (ip ≠ [] ∨ fp ≠ []) ∧ ip.all (fun c => c.isDigit) ∧ fp.all (fun c => c.isDigit) then
        some (sgn * ((digitsVal ip : ℚ) + (digitsVal fp : ℚ) / (10 : ℚ) ^ fp.length))
      else none
    | _ => none

/-- Translation of computeSecondsRemaining (src/web/app/page.tsx lines
18 to 28): split the clock on ":", require exactly two numeric parts,
return minutes times 60 plus seconds plus max(0, 4 - quarter) * 15 * 60;
any malformed clock yields 0. -/
def computeSecondsRemaining (quarter : ℚ) (clock : String) : ℚ :=
  match jsSplit (fun c => c = ':') clock with
  | [p0, p1] =>
    match jsNumber p0, jsNumber p1 with
    | some mm, some ss => (mm * 60 + ss) + max 0 (4 - quarter) * 15 * 60
    | _, _ => 0
  | _ => 0

/-- Translation of parseTeamsFromSlug (src/web/app/page.tsx lines 32 to
47): split the slug on hyphens; if an "nfl" token is found at index i and
at least two tokens follow it, take the uppercased tokens at i+1 and i+2;
otherwise, if there are at least three tokens, take the uppercased tokens
at positions 1 and 2; otherwise keep the placeholders. Inside each guarded
branch the indices are in range, so the getD defaults (the JS optional
chaining fallbacks) are never taken. -/
def parseTeamsFromSlug (slug : String) : String × String :=
  let parts := jsSplit (fun c => c = '-') slug
  match List.findIdx? (fun p => lower p = "nfl") parts with
  | some i =>
    if i + 3 ≤ parts.length then
      (upper (parts.getD (i + 1) "TEAM1"), upper (parts.getD (i + 2) "TEAM2"))
    else if 3 ≤ parts.length then
      (upper (parts.getD 1 "TEAM1"), upper (parts.getD 2 "TEAM2"))
    else ("TEAM1", "TEAM2")
  | none =>
    if 3 ≤ parts.length then
      (upper (parts.getD 1 "TEAM1"), upper (parts.getD 2 "TEAM2"))
    else ("TEAM1", "TEAM2")

/-- Translation of parseYardlineLabel (src/web/app/page.tsx lines 57 to
81): trim the label, reject the empty label, split on whitespace runs,
require exactly two tokens, convert the second with Number, reject NaN;
if the uppercased first token equals the uppercased home code return the
value clamped to [0, 100]; else if it equals the uppercased away code
return 100 minus the value clamped to [0, 100]; else fail. The whitespace
split of JS is a regex split; on a trimmed nonempty string it returns
exactly the maximal nonempty runs of non-whitespace characters, modelled
here by filtering empty pieces out of the character split. -/
def parseYardlineLabel (label homeTeam awayTeam : String) : Option ℚ :=
  let trimmed := trimChars label.data
  if trimmed = [] then none
  else
    match (splitCharList Char.isWhitespace trimmed).filter (fun l => l ≠ []) with
    | [t, ns] =>
      let team := upper (String.mk t)
      match jsNumber (String.mk ns) with
      | none => none
      | some y =>
        if team = upper homeTeam then some (min 100 (max 0 y))
        else if team = upper awayTeam then some (min 100 (max 0 (100 - y)))
        else none
    | _ => none

/-- The two wager sides of the form. -/
inductive Side where
  | home_yes : Side
  | home_no : Side
deriving DecidableEq, Repr

/-- A JSON scalar value, used to record the exact shape a field has in
the serialized request body. -/
inductive JsonValue where
  | num : ℚ → JsonValue
  | bool : Bool → JsonValue
  | str : String → JsonValue
deriving DecidableEq, Repr

/-- Whether a JSON scalar is a boolean. -/
def JsonValue.isBool : JsonValue → Bool
  | .bool _ => true
  | _ => false

/-- The EV response shape returned by the backend. -/
structure EVResponse where
  p_model : ℚ
  fair_price : ℚ
  market_price : ℚ
  fee_cost : ℚ
  edge_raw : ℚ
  edge_after_fees : ℚ
  ev_per_contract : ℚ
deriving DecidableEq, Repr

/-- The state object of the request payload built in handleSubmit
(src/web/app/page.tsx lines 171 to 181). home_has_ball is recorded as
the JSON value the source writes there. -/
structure GameStatePayload where
  quarter : ℚ
  seconds_remaining : ℚ
  home_score : ℚ
  away_score : ℚ
  score_diff_home : ℚ
  home_has_ball : JsonValue
  yardline_100 : ℚ
  down : ℚ
  ydstogo : ℚ
deriving DecidableEq, Repr

/-- The full request payload (src/web/app/page.tsx lines 167 to 182). -/
structure WagerRequest where
  slug : String
  side : Side
  fee_cost : ℚ
  state : GameStatePayload
deriving DecidableEq, Repr

/-- The form fields read by handleSubmit. A numeric field holding none
models the empty string state the inputs allow during editing. homeTeam
and awayTeam are the user-selected team codes. -/
structure FormState where
  slug : String
  side : Side
  quarter : Option ℚ
  clock : String
  homeScore : Option ℚ
  awayScore : Option ℚ
  homeHasBall : Bool
  yardlineLabel : String
  down : Option ℚ
  ydstogo : Option ℚ
  feeCost : Option ℚ
  homeTeam : String
  awayTeam : String
deriving DecidableEq, Repr

/-- Translation of parseOrDefault (src/web/app/page.tsx lines 136 to
138): a number passes through, the empty state falls back. The NaN guard
of the source is vacuous here because the input handlers never store NaN
and the model has no NaN. -/
def parseOrDefault (value : Option ℚ) (fallback : ℚ) : ℚ := value.getD fallback

/-- The clamped quarter computed at submission (page.tsx line 148). -/
def submittedQuarter (f : FormState) : ℚ := min 4 (max 1 (parseOrDefault f.quarter 1))

/-- The home score computed at submission (page.tsx line 149). -/
def submittedHomeScore (f : FormState) : ℚ := parseOrDefault f.homeScore 0

/-- The away score computed at submission (page.tsx line 150). -/
def submittedAwayScore (f : FormState) : ℚ := parseOrDefault f.awayScore 0

/-- The clamped down computed at submission (page.tsx line 151). -/
def submittedDown (f : FormState) : ℚ := min 4 (max 1 (parseOrDefault f.down 1))

/-- The clamped yards-to-go computed at submission (page.tsx line 152). -/
def submittedYdstogo (f : FormState) : ℚ := max 1 (parseOrDefault f.ydstogo 10)

/-- The clamped fee computed at submission (page.tsx line 153). -/
def submittedFee (f : FormState) : ℚ := max 0 (parseOrDefault f.feeCost 0)

/-- The payload-building part of handleSubmit (src/web/app/page.tsx lines
147 to 182): normalize the numeric fields, derive seconds remaining and
the score difference, convert the yardline label, and either fail (none)
on a yardline parse failure or produce the request payload. The source
writes the conditional 1 or 0 into home_has_ball, so the field is a JSON
number. -/
def buildPayload (f : FormState) : Option WagerRequest :=
  match parseYardlineLabel f.yardlineLabel f.homeTeam f.awayTeam with
  | none => none
  | some yl =>
    some
      { slug := f.slug
        side := f.side
        fee_cost := submittedFee f
        state :=
          { quarter := submittedQuarter f
            seconds_remaining := computeSecondsRemaining (submittedQuarter f) f.clock
            home_score := submittedHomeScore f
            away_score := submittedAwayScore f
            score_diff_home := submittedHomeScore f - submittedAwayScore f
            home_has_ball := JsonValue.num (if f.homeHasBall then 1 else 0)
            yardline_100 := yl
            down := submittedDown f
            ydstogo := submittedYdstogo f } }

/-- The inline yardline error message of handleSubmit (page.tsx lines
161 to 163). -/
def yardlineErrorMessage (homeTeam awayTeam : String) : String :=
  "Yardline must look like \"" ++ homeTeam ++ " 36\" or \"" ++ awayTeam ++
    " 12\" and use one of the two team codes."

/-- An HTTP response as observed by handleSubmit: the ok flag, the status
code, the status text, the body text read on failure, and the decoded
JSON body read on success. -/
structure HttpResponse where
  ok : Bool
  status : ℕ
  statusText : String
  bodyText : String
  body : EVResponse
deriving DecidableEq, Repr

/-- The component state produced by one run of handleSubmit: the request
that was sent over the network, if any, and the final values of the
yardline error, page error, result and loading states. -/
structure SubmitOutcome where
  sentRequest : Option WagerRequest
  yardlineError : Option String
  error : Option String
  result : Option EVResponse
  loading : Bool
deriving DecidableEq, Repr

/-- Translation of handleSubmit (src/web/app/page.tsx lines 140 to 206).
prevYardlineError is the yardline error captured by the render closure in
which the handler was created: the catch block tests that stale value,
not the value just stored, so a page error is only recorded when the
previous render had no yardline error. On a yardline parse failure the
field error is set, an exception is thrown, and no request is sent. On a
sent request with a non-ok response the thrown message carries the status
and the body text, with the status text replacing an empty body. -/
def handleSubmit (f : FormState) (prevYardlineError : Option String)
    (http : WagerRequest → HttpResponse) : SubmitOutcome :=
  match buildPayload f with
  | none =>
    { sentRequest := none
      yardlineError := some (yardlineErrorMessage f.homeTeam f.awayTeam)
      error := if prevYardlineError = none then some "Invalid yardline format" else none
      result := none
      loading := false }
  | some payload =>
    let res := http payload
    if res.ok then
      { sentRequest := some payload
        yardlineError := none
        error := none
        result := some res.body
        loading := false }
    else
      { sentRequest := some payload
        yardlineError := none
        error :=
          if prevYardlineError = none then
            some ("Backend error " ++ toString res.status ++ ": " ++
              (if res.bodyText = "" then res.statusText else res.bodyText))
          else none
        result := none
        loading := false }

/-- Claim C1: for every yardline label, home code and away code, when the
trimmed label splits into exactly a team token and a numeric token, a team
token matching the home code case-insensitively yields the yards value
clamped to [0, 100]; a team token matching the away code (and not the home
code) yields 100 minus the yards value clamped to [0, 100]; a team token
matching neither code yields none, and a label without exactly a team
token and a numeric token yields none. With home HOU and away BUF, the
label "HOU 36" yields 36, "BUF 12" yields 88 and "NYJ 10" fails. -/
theorem parseYardlineLabel_spec :
    (∀ (label homeTeam awayTeam : String) (t ns : List Char) (y : ℚ),
      (splitCharList Char.isWhitespace (trimChars label.data)).filter (fun l => l ≠ []) = [t, ns] →
      jsNumber (String.mk ns) = some y →
        (upper (String.mk t) = upper homeTeam →
          parseYardlineLabel label homeTeam awayTeam = some (min 100 (max 0 y))) ∧
        (upper (String.mk t) ≠ upper homeTeam → upper (String.mk t) = upper awayTeam →
          parseYardlineLabel label homeTeam awayTeam = some (min 100 (max 0 (100 - y)))) ∧
        (upper (String.mk t) ≠ upper homeTeam → upper (String.mk t) ≠ upper awayTeam →
          parseYardlineLabel label homeTeam awayTeam = none)) ∧
    (∀ (label homeTeam awayTeam : String),
      (¬ ∃ (t ns : List Char) (y : ℚ),
        (splitCharList Char.isWhitespace (trimChars label.data)).filter (fun l => l ≠ []) = [t, ns] ∧
        jsNumber (String.mk ns) = some y) →
      parseYardlineLabel label homeTeam awayTeam = none) ∧
    parseYardlineLabel "HOU 36" "HOU" "BUF" = some 36 ∧
    parseYardlineLabel "BUF 12" "HOU" "BUF" = some 88 ∧
    parseYardlineLabel "NYJ 10" "HOU" "BUF" = none := by
  refine ⟨?_, ?_, ?_, ?_, ?_⟩
  · intro label homeTeam awayTeam t ns y htok hy
    have hne : trimChars label.data ≠ [] := by
      intro h0
      rw [h0] at htok
      simp [splitCharList] at htok
    refine ⟨?_, ?_, ?_⟩
    · intro hhome
      simp only [parseYardlineLabel]
      rw [if_neg hne, htok]
      simp only [hy]
      rw [if_pos hhome]
    · intro hnothome hawayp
      simp only [parseYardlineLabel]
      rw [if_neg hne, htok]
      simp only [hy]
      rw [if_neg hnothome, if_pos hawayp]
    · intro hnothome hnotaway
      simp only [parseYardlineLabel]
      rw [if_neg hne, htok]
      simp only [hy]
      rw [if_neg hnothome, if_neg hnotaway]
  · intro label homeTeam awayTeam hnex
    by_cases h0 : trimChars label.data = []
    · simp only [parseYardlineLabel]
      rw [if_pos h0]
    · cases hsplit : (splitCharList Char.isWhitespace (trimChars label.data)).filter
          (fun l => l ≠ []) with
      | nil =>
        simp only [parseYardlineLabel]
        rw [if_neg h0, hsplit]
      | cons t rest =>
        cases rest with
        | nil =>
          simp only [parseYardlineLabel]
          rw [if_neg h0, hsplit]
        | cons ns rest2 =>
          cases rest2 with
          | nil =>
            cases hjs : jsNumber (String.mk ns) with
            | none =>
              simp only [parseYardlineLabel]
              rw [if_neg h0, hsplit]
              simp only [hjs]
            | some y => exact absurd ⟨t, ns, y, hsplit, hjs⟩ hnex
          | cons a rest3 =>
            simp only [parseYardlineLabel]
            rw [if_neg h0, hsplit]
  · with_unfolding_all rfl
  · with_unfolding_all rfl
  · with_unfolding_all rfl

/-- Witness for claim C1: the general branch of the theorem applied to the
concrete label "HOU 36" with home HOU and away BUF recovers the clamped
value 36. -/
theorem parseYardlineLabel_spec_witness :
    parseYardlineLabel "HOU 36" "HOU" "BUF" = some (min 100 (max 0 (36 : ℚ))) :=
  (parseYardlineLabel_spec.1 "HOU 36" "HOU" "BUF" ['H', 'O', 'U'] ['3', '6'] 36
    (by decide) (by with_unfolding_all rfl)).1 (by decide)

/-- Claim C2: for every quarter number and every clock string that splits
on ":" into exactly two numeric parts with values mm and ss,
computeSecondsRemaining returns (mm * 60 + ss) + max(0, 4 - quarter) * 900;
in particular quarter 1 with "15:00" gives 3600 and quarter 4 with "0:30"
gives 30. -/
theorem computeSecondsRemaining_wellFormed :
    (∀ (quarter : ℚ) (clock p0 p1 : String) (mm ss : ℚ),
      jsSplit (fun c => c = ':') clock = [p0, p1] →
      jsNumber p0 = some mm → jsNumber p1 = some ss →
      computeSecondsRemaining quarter clock = (mm * 60 + ss) + max 0 (4 - quarter) * 900) ∧
    computeSecondsRemaining 1 "15:00" = 3600 ∧
    computeSecondsRemaining 4 "0:30" = 30 := by
  refine ⟨?_, by with_unfolding_all rfl, by with_unfolding_all rfl⟩
  intro quarter clock p0 p1 mm ss hsplit h0 h1
  simp only [computeSecondsRemaining]
  rw [hsplit]
  simp only [h0, h1]
  ring

/-- Witness for claim C2: the general branch applied to quarter 1 and the
clock "15:00" gives 15 * 60 + 0 + 3 * 900 = 3600 seconds. -/
theorem computeSecondsRemaining_wellFormed_witness :
    computeSecondsRemaining 1 "15:00" = ((15 : ℚ) * 60 + 0) + max 0 (4 - 1) * 900 :=
  computeSecondsRemaining_wellFormed.1 1 "15:00" "15" "00" 15 0
    (by decide) (by with_unfolding_all rfl) (by with_unfolding_all rfl)

/-- Claim C4: for every quarter number and every clock string that does
not split on ":" into exactly two numeric parts, computeSecondsRemaining
returns 0; the function is total, so no failure is possible. -/
theorem computeSecondsRemaining_malformed :
    ∀ (quarter : ℚ) (clock : String),
      (¬ ∃ (p0 p1 : String) (mm ss : ℚ), jsSplit (fun c => c = ':') clock = [p0, p1] ∧
        jsNumber p0 = some mm ∧ jsNumber p1 = some ss) →
      computeSecondsRemaining quarter clock = 0 := by
  intro quarter clock hnex
  cases hsplit : jsSplit (fun c => c = ':') clock with
  | nil =>
    simp only [computeSecondsRemaining]
    rw [hsplit]
  | cons p0 rest =>
    cases rest with
    | nil =>
      simp only [computeSecondsRemaining]
      rw [hsplit]
    | cons p1 rest2 =>
      cases rest2 with
      | nil =>
        cases hm : jsNumber p0 with
        | none =>
          simp only [computeSecondsRemaining]
          rw [hsplit]
          simp only [hm]
        | some mm =>
          cases hs : jsNumber p1 with
          | none =>
            simp only [computeSecondsRemaining]
            rw [hsplit]
            simp only [hm, hs]
          | some ss => exact absurd ⟨p0, p1, mm, ss, hsplit, hm, hs⟩ hnex
      | cons p2 rest3 =>
        simp only [computeSecondsRemaining]
        rw [hsplit]

/-- Witness for claim C4: the clock "abc" has no colon, so the handler
computes 0 seconds for it in quarter 2. -/
theorem computeSecondsRemaining_malformed_witness :
    computeSecondsRemaining 2 "abc" = 0 :=
  computeSecondsRemaining_malformed 2 "abc" (by
    rintro ⟨p0, p1, mm, ss, h, hm, hs⟩
    rw [show jsSplit (fun c => c = ':') "abc" = ["abc"] from by decide] at h
    simp at h)

/-- Claim C10: parseTeamsFromSlug is total by construction, and every
slug with fewer than three hyphen-separated parts produces the
placeholder pair. -/
theorem parseTeamsFromSlug_short :
    ∀ slug : String, (jsSplit (fun c => c = '-') slug).length < 3 →
      parseTeamsFromSlug slug = ("TEAM1", "TEAM2") := by
  intro slug hlen
  simp only [parseTeamsFromSlug]
  cases hidx : List.findIdx? (fun p => lower p = "nfl") (jsSplit (fun c => c = '-') slug) with
  | none =>
    dsimp only
    rw [if_neg (by omega)]
  | some i =>
    dsimp only
    rw [if_neg (by omega), if_neg (by omega)]

/-- Witness for claim C10: the slug "a-b" has two parts and produces the
placeholders. -/
theorem parseTeamsFromSlug_short_witness :
    parseTeamsFromSlug "a-b" = ("TEAM1", "TEAM2") :=
  parseTeamsFromSlug_short "a-b" (by decide)

/-- Claim C5: at submission time every empty numeric field falls back to
its caller-supplied default, the bounded fields are clamped into range
(quarter and down into [1, 4], yards-to-go to at least 1, fee to at least
0), a down of 7 becomes 4, a fee of -1 becomes 0, and the only way a
submission is refused is a yardline parse failure, never an out-of-bounds
numeric value. -/
theorem numericFields_defaulted_and_clamped :
    ∀ f : FormState,
      (f.quarter = none → submittedQuarter f = 1) ∧
      (f.homeScore = none → submittedHomeScore f = 0) ∧
      (f.awayScore = none → submittedAwayScore f = 0) ∧
      (f.down = none → submittedDown f = 1) ∧
      (f.ydstogo = none → submittedYdstogo f = 10) ∧
      (f.feeCost = none → submittedFee f = 0) ∧
      1 ≤ submittedQuarter f ∧ submittedQuarter f ≤ 4 ∧
      1 ≤ submittedDown f ∧ submittedDown f ≤ 4 ∧
      1 ≤ submittedYdstogo f ∧ 0 ≤ submittedFee f ∧
      (f.down = some 7 → submittedDown f = 4) ∧
      (f.feeCost = some (-1) → submittedFee f = 0) ∧
      (buildPayload f = none ↔
        parseYardlineLabel f.yardlineLabel f.homeTeam f.awayTeam = none) := by
  intro f
  refine ⟨?_, ?_, ?_, ?_, ?_, ?_, ?_, ?_, ?_, ?_, ?_, ?_, ?_, ?_, ?_⟩
  · intro h
    norm_num [submittedQuarter, parseOrDefault, h, min_def, max_def]
  · intro h
    norm_num [submittedHomeScore, parseOrDefault, h]
  · intro h
    norm_num [submittedAwayScore, parseOrDefault, h]
  · intro h
    norm_num [submittedDown, parseOrDefault, h, min_def, max_def]
  · intro h
    norm_num [submittedYdstogo, parseOrDefault, h, max_def]
  · intro h
    norm_num [submittedFee, parseOrDefault, h, max_def]
  · exact le_min (by norm_num) (le_max_left 1 _)
  · exact min_le_left 4 _
  · exact le_min (by norm_num) (le_max_left 1 _)
  · exact min_le_left 4 _
  · exact le_max_left 1 _
  · exact le_max_left 0 _
  · intro h
    norm_num [submittedDown, parseOrDefault, h, min_def, max_def]
  · intro h
    norm_num [submittedFee, parseOrDefault, h, max_def]
  · cases hyl : parseYardlineLabel f.yardlineLabel f.homeTeam f.awayTeam with
    | none =>
      constructor
      · intro _
        rfl
      · intro _
        simp only [buildPayload]
        rw [hyl]
    | some v =>
      constructor
      · intro hbp
        simp only [buildPayload] at hbp
        rw [hyl] at hbp
        simp at hbp
      · intro h
        simp at h

/-- Witness for claim C5: on a concrete form with a down of 7 and a fee
of -1, the clamped submitted values are 4 and 0. -/
theorem numericFields_defaulted_and_clamped_witness :
    submittedDown ⟨"s", Side.home_yes, some 1, "15:00", some 0, some 0, true,
      "HOU 25", some 7, some 10, some (-1), "HOU", "BUF"⟩ = 4 ∧
    submittedFee ⟨"s", Side.home_yes, some 1, "15:00", some 0, some 0, true,
      "HOU 25", some 7, some 10, some (-1), "HOU", "BUF"⟩ = 0 := by
  have h := numericFields_defaulted_and_clamped ⟨"s", Side.home_yes, some 1, "15:00",
    some 0, some 0, true, "HOU 25", some 7, some 10, some (-1), "HOU", "BUF"⟩
  exact ⟨h.2.2.2.2.2.2.2.2.2.2.2.2.1 rfl, h.2.2.2.2.2.2.2.2.2.2.2.2.2.1 rfl⟩

/-- Claim C3: whenever the yardline label fails to parse against the
selected home and away team codes, the submission handler sends no
request, sets the dedicated yardline field error, and its outcome does
not depend on the HTTP layer at all. -/
theorem yardlineFailure_blocksRequest :
    ∀ (f : FormState) (prev : Option String) (http http2 : WagerRequest → HttpResponse),
      parseYardlineLabel f.yardlineLabel f.homeTeam f.awayTeam = none →
      (handleSubmit f prev http).sentRequest = none ∧
      (handleSubmit f prev http).yardlineError =
        some (yardlineErrorMessage f.homeTeam f.awayTeam) ∧
      handleSubmit f prev http = handleSubmit f prev http2 := by
  intro f prev http http2 hyl
  have hbp : buildPayload f = none := by
    simp only [buildPayload]
    rw [hyl]
  refine ⟨?_, ?_, ?_⟩ <;> simp [handleSubmit, hbp]

/-- Witness for claim C3: with the unknown team label "NYJ 10" against
home HOU and away BUF, the handler sends no request. -/
theorem yardlineFailure_blocksRequest_witness :
    (handleSubmit ⟨"s", Side.home_yes, some 1, "15:00", some 0, some 0, true,
      "NYJ 10", some 1, some 10, some 0, "HOU", "BUF"⟩ none
      (fun _ => ⟨true, 200, "OK", "", ⟨0, 0, 0, 0, 0, 0, 0⟩⟩)).sentRequest = none :=
  (yardlineFailure_blocksRequest ⟨"s", Side.home_yes, some 1, "15:00", some 0, some 0,
    true, "NYJ 10", some 1, some 10, some 0, "HOU", "BUF"⟩ none
    (fun _ => ⟨true, 200, "OK", "", ⟨0, 0, 0, 0, 0, 0, 0⟩⟩)
    (fun _ => ⟨true, 200, "OK", "", ⟨0, 0, 0, 0, 0, 0, 0⟩⟩)
    (by with_unfolding_all rfl)).1

/-- Counterexample to claim C7: on a non-2xx response with status 500 and
body "boom", the displayed page-level error is the prefixed message
"Backend error 500: boom", not the response body text "boom" verbatim. -/
theorem backendError_not_verbatim :
    (handleSubmit ⟨"s", Side.home_yes, some 1, "15:00", some 0, some 0, true,
      "HOU 25", some 1, some 10, some 0, "HOU", "BUF"⟩ none
      (fun _ => ⟨false, 500, "Internal Server Error", "boom", ⟨0, 0, 0, 0, 0, 0, 0⟩⟩)).error =
      some "Backend error 500: boom" ∧
    "Backend error 500: boom" ≠ "boom" :=
  ⟨by with_unfolding_all rfl, by decide⟩

/-- Claim C7 amended: for every non-2xx response on a sent request, no
result is shown; when the closure-captured yardline error of the previous
render is null, the displayed page-level error is "Backend error",
the status code, then the response body text, with the status text
substituted when the body is empty; when that captured value is non-null,
no page-level error is set at all. -/
theorem backendError_message_amended :
    ∀ (f : FormState) (prev : Option String) (http : WagerRequest → HttpResponse)
      (w : WagerRequest),
      buildPayload f = some w → (http w).ok = false →
      (handleSubmit f prev http).result = none ∧
      (handleSubmit f prev http).sentRequest = some w ∧
      (prev = none → (handleSubmit f prev http).error =
        some ("Backend error " ++ toString (http w).status ++ ": " ++
          (if (http w).bodyText = "" then (http w).statusText else (http w).bodyText))) ∧
      (prev ≠ none → (handleSubmit f prev http).error = none) := by
  intro f prev http w hbp hok
  refine ⟨?_, ?_, ?_, ?_⟩
  · simp [handleSubmit, hbp, hok]
  · simp [handleSubmit, hbp, hok]
  · intro hprev
    simp [handleSubmit, hbp, hok, hprev]
  · intro hprev
    simp [handleSubmit, hbp, hok, hprev]

/-- Witness for claim C7 amended: on a concrete failing response the
handler shows no result and reports the prefixed backend error. -/
theorem backendError_message_amended_witness :
    (handleSubmit ⟨"s", Side.home_yes, some 1, "15:00", some 0, some 0, true,
      "HOU 25", some 1, some 10, some 0, "HOU", "BUF"⟩ (some "stale")
      (fun _ => ⟨false, 404, "Not Found", "", ⟨0, 0, 0, 0, 0, 0, 0⟩⟩)).result = none :=
  (backendError_message_amended ⟨"s", Side.home_yes, some 1, "15:00", some 0, some 0,
    true, "HOU 25", some 1, some 10, some 0, "HOU", "BUF"⟩ (some "stale")
    (fun _ => ⟨false, 404, "Not Found", "", ⟨0, 0, 0, 0, 0, 0, 0⟩⟩)
    ⟨"s", Side.home_yes, 0, ⟨1, 3600, 0, 0, 0, JsonValue.num 1, 25, 1, 10⟩⟩
    (by with_unfolding_all rfl) rfl).1

/-- Counterexample to claim C8: in a submitted payload the
state.home_has_ball field is the JSON number 1 (when the home team has
the ball), not a boolean value. -/
theorem home_has_ball_not_boolean :
    (buildPayload ⟨"s", Side.home_yes, some 1, "15:00", some 0, some 0, true,
      "HOU 25", some 1, some 10, some 0, "HOU", "BUF"⟩).map
        (fun w => w.state.home_has_ball) = some (JsonValue.num 1) ∧
    (buildPayload ⟨"s", Side.home_yes, some 1, "15:00", some 0, some 0, true,
      "HOU 25", some 1, some 10, some 0, "HOU", "BUF"⟩).map
        (fun w => w.state.home_has_ball.isBool) = some false :=
  ⟨by with_unfolding_all rfl, by with_unfolding_all rfl⟩

/-- Claim C8 amended: in every submitted payload the state.home_has_ball
field is the JSON number 1 when the home team has the ball and the JSON
number 0 otherwise; it is never a boolean. -/
theorem home_has_ball_numeric :
    ∀ (f : FormState) (w : WagerRequest),
      buildPayload f = some w →
      w.state.home_has_ball = JsonValue.num (if f.homeHasBall then 1 else 0) ∧
      w.state.home_has_ball.isBool = false := by
  intro f w hbp
  cases hyl : parseYardlineLabel f.yardlineLabel f.homeTeam f.awayTeam with
  | none =>
    simp only [buildPayload] at hbp
    rw [hyl] at hbp
    simp at hbp
  | some yl =>
    simp only [buildPayload] at hbp
    rw [hyl] at hbp
    simp only [Option.some.injEq] at hbp
    subst hbp
    refine ⟨rfl, ?_⟩
    cases f.homeHasBall <;> rfl

/-- Witness for claim C8 amended: on a concrete submitted payload the
field equals the JSON number 1 and is not a boolean. -/
theorem home_has_ball_numeric_witness :
    (⟨"s", Side.home_yes, 0, ⟨1, 3600, 0, 0, 0, JsonValue.num 1, 25, 1, 10⟩⟩
        : WagerRequest).state.home_has_ball = JsonValue.num 1 ∧
    JsonValue.isBool (JsonValue.num 1) = false :=
  home_has_ball_numeric ⟨"s", Side.home_yes, some 1, "15:00", some 0, some 0, true,
    "HOU 25", some 1, some 10, some 0, "HOU", "BUF"⟩
    ⟨"s", Side.home_yes, 0, ⟨1, 3600, 0, 0, 0, JsonValue.num 1, 25, 1, 10⟩⟩
    (by with_unfolding_all rfl)

/-- Counterexample to claim C6: the handler never clamps the derived
seconds value, so the admissible clock string "999:0" in quarter 1
produces a submitted payload whose state.seconds_remaining is 62640,
outside [0, 3600]. -/
theorem seconds_remaining_out_of_range :
    (buildPayload ⟨"s", Side.home_yes, some 1, "999:0", some 0, some 0, true,
      "HOU 25", some 1, some 10, some 0, "HOU", "BUF"⟩).map
        (fun w => w.state.seconds_remaining) = some 62640 ∧
    ¬ ((62640 : ℚ) ≤ 3600) :=
  ⟨by with_unfolding_all rfl, by norm_num⟩

/-- Claim C6 amended: in every submitted payload whose clock parses into
minutes mm and seconds ss with 0 ≤ mm * 60 + ss ≤ 900 (at most one full
quarter on the clock, as on a real scoreboard), the derived
state.seconds_remaining lies in [0, 3600]; for clock values outside that
range the code computes the unclamped value, which can leave [0, 3600]. -/
theorem seconds_remaining_range_amended :
    ∀ (f : FormState) (w : WagerRequest) (p0 p1 : String) (mm ss : ℚ),
      buildPayload f = some w →
      jsSplit (fun c => c = ':') f.clock = [p0, p1] →
      jsNumber p0 = some mm → jsNumber p1 = some ss →
      0 ≤ mm * 60 + ss → mm * 60 + ss ≤ 900 →
      0 ≤ w.state.seconds_remaining ∧ w.state.seconds_remaining ≤ 3600 := by
  intro f w p0 p1 mm ss hbp hsplit hm hs hlo hhi
  have hw : w.state.seconds_remaining = computeSecondsRemaining (submittedQuarter f) f.clock := by
    cases hyl : parseYardlineLabel f.yardlineLabel f.homeTeam f.awayTeam with
    | none =>
      simp only [buildPayload] at hbp
      rw [hyl] at hbp
      simp at hbp
    | some yl =>
      simp only [buildPayload] at hbp
      rw [hyl] at hbp
      simp only [Option.some.injEq] at hbp
      subst hbp
      rfl
  have hc : computeSecondsRemaining (submittedQuarter f) f.clock =
      (mm * 60 + ss) + max 0 (4 - submittedQuarter f) * 15 * 60 := by
    simp only [computeSecondsRemaining]
    rw [hsplit]
    simp only [hm, hs]
  have hq1 : (1 : ℚ) ≤ submittedQuarter f :=
    le_min (by norm_num) (le_max_left 1 _)
  have hq4 : submittedQuarter f ≤ 4 := min_le_left 4 _
  have hM0 : (0 : ℚ) ≤ max 0 (4 - submittedQuarter f) := le_max_left 0 _
  have hM3 : max 0 (4 - submittedQuarter f) ≤ 3 :=
    max_le (by norm_num) (by linarith)
  rw [hw, hc]
  constructor
  · nlinarith
  · nlinarith

/-- Witness for claim C6 amended: the payload built from the default form
with clock "15:00" has seconds_remaining 3600, inside [0, 3600]. -/
theorem seconds_remaining_range_amended_witness :
    (0 : ℚ) ≤ (⟨"s", Side.home_yes, 0, ⟨1, 3600, 0, 0, 0, JsonValue.num 1, 25, 1, 10⟩⟩
        : WagerRequest).state.seconds_remaining ∧
    (⟨"s", Side.home_yes, 0, ⟨1, 3600, 0, 0, 0, JsonValue.num 1, 25, 1, 10⟩⟩
        : WagerRequest).state.seconds_remaining ≤ 3600 :=
  seconds_remaining_range_amended ⟨"s", Side.home_yes, some 1, "15:00", some 0, some 0,
    true, "HOU 25", some 1, some 10, some 0, "HOU", "BUF"⟩
    ⟨"s", Side.home_yes, 0, ⟨1, 3600, 0, 0, 0, JsonValue.num 1, 25, 1, 10⟩⟩
    "15" "00" 15 0 (by with_unfolding_all rfl) (by decide)
    (by with_unfolding_all rfl) (by with_unfolding_all rfl)
    (by norm_num) (by norm_num)

/-- Counterexample to claim C9: in the slug "x-nfl-a" an "nfl" token is
present at index 1 with only one token after it, yet the function returns
("NFL", "A"), whose first component is the uppercased "nfl" token itself
rather than a token following it: the claimed rule that, whenever an
"nfl" token is present, the two uppercased tokens immediately after it
are returned, fails here. -/
theorem parseTeamsFromSlug_nfl_fallback :
    parseTeamsFromSlug "x-nfl-a" = ("NFL", "A") ∧
    List.findIdx? (fun p => lower p = "nfl") (jsSplit (fun c => c = '-') "x-nfl-a") =
      some 1 ∧
    (jsSplit (fun c => c = '-') "x-nfl-a").drop 2 = ["a"] :=
  ⟨by with_unfolding_all rfl, by decide, by decide⟩

/-- Claim C9 amended: team-code derivation splits the slug on hyphens;
when the first "nfl" token is followed by at least two tokens, it returns
those two tokens uppercased; when an "nfl" token is present without two
followers, or absent, it falls back to the uppercased tokens at positions
1 and 2 provided at least three tokens exist; and the request payload
carries the original slug string unchanged (the payload has no field for
the derived codes). -/
theorem parseTeamsFromSlug_amended :
    (∀ (slug : String) (i : ℕ),
      List.findIdx? (fun p => lower p = "nfl") (jsSplit (fun c => c = '-') slug) = some i →
      i + 3 ≤ (jsSplit (fun c => c = '-') slug).length →
      parseTeamsFromSlug slug =
        (upper ((jsSplit (fun c => c = '-') slug).getD (i + 1) "TEAM1"),
         upper ((jsSplit (fun c => c = '-') slug).getD (i + 2) "TEAM2"))) ∧
    (∀ (slug : String) (i : ℕ),
      List.findIdx? (fun p => lower p = "nfl") (jsSplit (fun c => c = '-') slug) = some i →
      (jsSplit (fun c => c = '-') slug).length < i + 3 →
      3 ≤ (jsSplit (fun c => c = '-') slug).length →
      parseTeamsFromSlug slug =
        (upper ((jsSplit (fun c => c = '-') slug).getD 1 "TEAM1"),
         upper ((jsSplit (fun c => c = '-') slug).getD 2 "TEAM2"))) ∧
    (∀ slug : String,
      List.findIdx? (fun p => lower p = "nfl") (jsSplit (fun c => c = '-') slug) = none →
      3 ≤ (jsSplit (fun c => c = '-') slug).length →
      parseTeamsFromSlug slug =
        (upper ((jsSplit (fun c => c = '-') slug).getD 1 "TEAM1"),
         upper ((jsSplit (fun c => c = '-') slug).getD 2 "TEAM2"))) ∧
    (∀ (f : FormState) (w : WagerRequest), buildPayload f = some w → w.slug = f.slug) := by
  refine ⟨?_, ?_, ?_, ?_⟩
  · intro slug i hidx hlen
    simp only [parseTeamsFromSlug]
    rw [hidx]
    dsimp only
    rw [if_pos hlen]
  · intro slug i hidx hshort hlen
    simp only [parseTeamsFromSlug]
    rw [hidx]
    dsimp only
    rw [if_neg (by omega), if_pos hlen]
  · intro slug hidx hlen
    simp only [parseTeamsFromSlug]
    rw [hidx]
    dsimp only
    rw [if_pos hlen]
  · intro f w hbp
    cases hyl : parseYardlineLabel f.yardlineLabel f.homeTeam f.awayTeam with
    | none =>
      simp only [buildPayload] at hbp
      rw [hyl] at hbp
      simp at hbp
    | some yl =>
      simp only [buildPayload] at hbp
      rw [hyl] at hbp
      simp only [Option.some.injEq] at hbp
      subst hbp
      rfl

/-- Witness for claim C9 amended: on the slug "nfl-buf-hou-2025-11-20"
the "nfl" token sits at index 0 and the derived pair is the uppercased
tokens at indices 1 and 2. -/
theorem parseTeamsFromSlug_amended_witness :
    parseTeamsFromSlug "nfl-buf-hou-2025-11-20" =
      (upper ((jsSplit (fun c => c = '-') "nfl-buf-hou-2025-11-20").getD 1 "TEAM1"),
       upper ((jsSplit (fun c => c = '-') "nfl-buf-hou-2025-11-20").getD 2 "TEAM2")) :=
  parseTeamsFromSlug_amended.1 "nfl-buf-hou-2025-11-20" 0 (by decide) (by decide)
